import Mathlib

/-!
Verification of the clutch SQLite-for-Lua binding (src/clutch.c).

The development shallowly embeds the hand-written C core: Lua call-stack
values become an inductive `LuaValue`, the SQLite engine is modelled through
the exact C API entry points the code calls (`sqlite3_step`,
`sqlite3_bind_*`, `sqlite3_reset`, ...), and a `sqlite3_stmt *` (possibly
NULL) becomes `Option Stmt`.  Stateful C functions become explicit
state-passing functions; `luaL_error` raises become `Except.error`.

Engine-side behaviour that the code relies on is modelled from the SQLite
documentation: a prepared statement is summarised by the ordered list of
rows the engine will emit (`rows`), a cursor, an optional terminal error
code, and the trace of parameter bindings performed on it.  The NULL-handle
behaviour of the engine entry points (step on NULL returns SQLITE_MISUSE,
reset on NULL is a harmless no-op, the parameter count of NULL is 0)
follows the sqlite3 sources/documentation.

Lua-side behaviour follows the Lua 5.3+ reference manual (the
`LUA_VERSION_NUM >= 503` branches of the C file are the ones modelled):
in particular `lua_isstring` is true for strings AND numbers.
-/

deriving instance DecidableEq for Except

namespace Clutch

/-- SQLite status codes used by clutch (from sqlite3.h). -/
def SQLITE_OK : Nat := 0

def SQLITE_MISUSE : Nat := 21

def SQLITE_RANGE : Nat := 25

def SQLITE_ROW : Nat := 100

def SQLITE_DONE : Nat := 101

/-- A native SQL scalar value, as bound into or read out of a statement. -/
inductive SqlValue where
  | null
  | integer (i : Int)
  | real (q : Rat)
  | text (s : String)
  | blob (b : String)
deriving DecidableEq, Repr

/-- A Lua call-stack value (Lua 5.3+: numbers have an integer and a float
subtype).  Floats are modelled exactly as rationals; no claim depends on
floating-point rounding, only on which subtype a value has. -/
inductive LuaValue where
  | nil
  | boolean (b : Bool)
  | int (i : Int)
  | num (q : Rat)
  | str (s : String)
  | table
  | func
  | other (tname : String)
deriving DecidableEq, Repr

/-- lua_typename of a value's type, as used in the unsupported-type error. -/
def lua_typename : LuaValue → String
  | .nil => "nil"
  | .boolean _ => "boolean"
  | .int _ => "number"
  | .num _ => "number"
  | .str _ => "string"
  | .table => "table"
  | .func => "function"
  | .other t => t

/-- lua_isstring: per the Lua reference manual it "returns 1 if the value at
the given index is a string or a number (which is always convertible to a
string)".  Numbers therefore satisfy this test. -/
def lua_isstring : LuaValue → Bool
  | .str _ => true
  | .int _ => true
  | .num _ => true
  | _ => false

/-- lua_isinteger: true exactly for values of the integer number subtype
(no coercion, per the Lua reference manual). -/
def lua_isinteger : LuaValue → Bool
  | .int _ => true
  | _ => false

/-- lua_isnumber: true for numbers.  The manual also accepts numeric
strings; that coercion is omitted here because in `bind_one_param` every
string value is already consumed by the `lua_isstring` branch tested
before this one, so the omission is unobservable at the only call site. -/
def lua_isnumber : LuaValue → Bool
  | .int _ => true
  | .num _ => true
  | _ => false

/-- lua_isnil. -/
def lua_isnil : LuaValue → Bool
  | .nil => true
  | _ => false

/-- lua_tolstring: strings are returned as-is, numbers are converted to
their decimal rendering.  (C Lua formats floats with "%.14g"; the exact
digit string of the float case is not significant for any claim, so the
canonical `Rat` rendering stands in for it.)  Other types never reach the
conversion in this code. -/
def lua_tolstring : LuaValue → String
  | .str s => s
  | .int i => toString i
  | .num q => toString q
  | _ => ""

/-- lua_tointeger on a value that passed `lua_isinteger`. -/
def lua_tointeger : LuaValue → Int
  | .int i => i
  | _ => 0

/-- lua_tonumber on a value that passed `lua_isnumber`. -/
def lua_tonumber : LuaValue → Rat
  | .int i => (i : Rat)
  | .num q => q
  | _ => 0

/-- A result row as the engine presents it: column name and native value,
in column order. -/
abbrev Row := List (String × SqlValue)

/-- A row converted to a Lua table by `handle_row`. -/
abbrev LuaRow := List (String × LuaValue)

/-- Engine-side state of one prepared statement.  `rows` is the ordered
sequence of rows the engine-compiled statement emits, `cursor` how
many have been emitted, `final` an optional engine error code reported
after the last row instead of SQLITE_DONE, `bound` the chronological trace
of parameter bindings performed through the `sqlite3_bind_*` entry points,
and `nChanges` the rows-changed count the engine reports via
`sqlite3_changes` once the statement has run. -/
structure Stmt where
  paramNames : List (Option String)
  rows : List Row
  cursor : Nat := 0
  final : Option Nat := none
  bound : List (Nat × SqlValue) := []
  nChanges : Int := 0
deriving DecidableEq, Repr

/-- A `sqlite3_stmt *` as stored in the statement userdata: NULL (= `none`)
once finalized. -/
abbrev StmtH := Option Stmt

/-- What one call to the engine's step returns: a row, completion, or an
error code.  (The `row` payload stands for SQLITE_ROW together with the
column reads `handle_row` performs on the current row.) -/
inductive EngineStep where
  | row (r : Row)
  | done
  | err (code : Nat)
deriving DecidableEq, Repr

/-- sqlite3_bind_parameter_count; 0 for a NULL statement pointer. -/
def sqlite3_bind_parameter_count : StmtH → Nat
  | none => 0
  | some st => st.paramNames.length

/-- sqlite3_bind_parameter_name: NULL for a NULL statement, for an
out-of-range index, and for an anonymous `?` parameter. -/
def sqlite3_bind_parameter_name (h : StmtH) (i : Nat) : Option String :=
  match h with
  | none => none
  | some st => st.paramNames.getD (i - 1) none

/-- Common engine-side bind: records the value in the statement's bind
trace.  SQLITE_RANGE for an out-of-range index, SQLITE_MISUSE on a NULL
statement (both per the sqlite3 sources; neither is reachable from the
clutch call sites, which iterate over 1..parameter_count of a non-NULL
statement). -/
def sqlite3_bind_value (h : StmtH) (i : Nat) (v : SqlValue) : Nat × StmtH :=
  match h with
  | none => (SQLITE_MISUSE, none)
  | some st =>
    if 1 ≤ i ∧ i ≤ st.paramNames.length then
      (SQLITE_OK, some { st with bound := st.bound ++ [(i, v)] })
    else (SQLITE_RANGE, some st)

/-- sqlite3_bind_text (clutch always passes SQLITE_TRANSIENT, so the engine
copies the bytes; ownership is not modelled). -/
def sqlite3_bind_text (h : StmtH) (i : Nat) (s : String) : Nat × StmtH :=
  sqlite3_bind_value h i (.text s)

/-- sqlite3_bind_int64. -/
def sqlite3_bind_int64 (h : StmtH) (i : Nat) (n : Int) : Nat × StmtH :=
  sqlite3_bind_value h i (.integer n)

/-- sqlite3_bind_double. -/
def sqlite3_bind_double (h : StmtH) (i : Nat) (q : Rat) : Nat × StmtH :=
  sqlite3_bind_value h i (.real q)

/-- sqlite3_bind_null. -/
def sqlite3_bind_null (h : StmtH) (i : Nat) : Nat × StmtH :=
  sqlite3_bind_value h i .null

/-- sqlite3_step: emits the next row, or DONE / the terminal error code once
the rows are exhausted.  On a NULL statement pointer it returns
SQLITE_MISUSE (sqlite3's vdbeSafetyNotNull guard), not undefined
behaviour. -/
def sqlite3_step : StmtH → EngineStep × StmtH
  | none => (.err SQLITE_MISUSE, none)
  | some st =>
    if st.cursor < st.rows.length then
      (.row (st.rows.getD st.cursor []), some { st with cursor := st.cursor + 1 })
    else
      match st.final with
      | some c => (.err c, some st)
      | none => (.done, some st)

/-- sqlite3_reset: rewinds the execution cursor; bound values are kept
(sqlite3_clear_bindings, which clutch never calls, would clear them).
On a NULL statement it is a harmless no-op returning SQLITE_OK. -/
def sqlite3_reset : StmtH → Nat × StmtH
  | none => (SQLITE_OK, none)
  | some st => (SQLITE_OK, some { st with cursor := 0 })

/-- sqlite3_changes(db) read immediately after this statement ran. -/
def sqlite3_changes : StmtH → Int
  | none => 0
  | some st => st.nChanges

/-- The errors the Lua layer raises with luaL_error, by source message:
"step: %s", "no results", "too many results",
"unsupported lua type '%s' at position %d",
"anonymous and numbered parameters not supported", and the
sqlite3_errmsg-carrying errors of prepare_query / db_update /
db_transaction. -/
inductive LuaErr where
  | stepError (code : Nat)
  | noResults
  | tooManyResults
  | unsupportedType (index : Nat) (tname : String)
  | unnamedParameter
  | sqlError (code : Nat)
deriving DecidableEq, Repr

/-- bind_one_param (src/clutch.c:227-249): dispatches on the Lua type of
the value at the stack top (passed here as `v`; the final lua_pop is the
consumption of that value) and performs the corresponding engine bind.
The branches are tested in source order: lua_isstring, lua_isinteger,
lua_isnumber, lua_isnil, else luaL_error. -/
def bind_one_param (v : LuaValue) (h : StmtH) (index : Nat) :
    Except LuaErr (Nat × StmtH) :=
  if lua_isstring v then .ok (sqlite3_bind_text h index (lua_tolstring v))
  else if lua_isinteger v then .ok (sqlite3_bind_int64 h index (lua_tointeger v))
  else if lua_isnumber v then .ok (sqlite3_bind_double h index (lua_tonumber v))
  else if lua_isnil v then .ok (sqlite3_bind_null h index)
  else .error (.unsupportedType index (lua_typename v))

/-- A Lua table key as used by the binder: integer keys (lua_geti) or
string keys (lua_getfield). -/
inductive TableKey where
  | num (i : Int)
  | str (s : String)
deriving DecidableEq, Repr

/-- The associative structure supplied in table mode. -/
abbrev LuaTable := List (TableKey × LuaValue)

/-- lua_geti: read t[i]; absent keys read as nil. -/
def table_geti (t : LuaTable) (i : Nat) : LuaValue :=
  ((t.find? (fun p => p.1 = TableKey.num (i : Int))).map Prod.snd).getD .nil

/-- lua_getfield: read t[k]; absent keys read as nil. -/
def table_getfield (t : LuaTable) (k : String) : LuaValue :=
  ((t.find? (fun p => p.1 = TableKey.str k)).map Prod.snd).getD .nil

/-- Loop body of bind_params (src/clutch.c:203-225), iterating over the
given parameter indices (the source iterates i = 1..count with count
snapshotted before the loop).  An unnamed or `?`-named parameter is looked
up by integer key, otherwise by the sigil-stripped name; a non-OK engine
status breaks out of the loop and is returned. -/
def bind_params_go (t : LuaTable) : List Nat → StmtH → Except LuaErr (Nat × StmtH)
  | [], h => .ok (SQLITE_OK, h)
  | i :: rest, h =>
    let v :=
      match sqlite3_bind_parameter_name h i with
      | none => table_geti t i
      | some name =>
        if name.front = '?' then table_geti t i else table_getfield t (name.drop 1)
    match bind_one_param v h i with
    | .error e => .error e
    | .ok (s, h1) =>
      if s = SQLITE_OK then bind_params_go t rest h1 else .ok (s, h1)

/-- bind_params (src/clutch.c:203-225): table mode. -/
def bind_params (t : LuaTable) (h : StmtH) : Except LuaErr (Nat × StmtH) :=
  bind_params_go t (List.range' 1 (sqlite3_bind_parameter_count h)) h

/-- The Lua stack region bind_varargs operates on after its
`lua_settop(L, lua_gettop(L) + (count - nparams))` (src/clutch.c:254),
listed top-first.  The caller pushed the N supplied values in order (so the
last one is on top); settop pads with nils when count > N and pops the
excess values when count < N, leaving exactly `count` slots. -/
def vararg_stack (count : Nat) (vs : List LuaValue) : List LuaValue :=
  if vs.length ≤ count then List.replicate (count - vs.length) LuaValue.nil ++ vs.reverse
  else vs.reverse.drop (vs.length - count)

/-- Loop of bind_varargs (src/clutch.c:256-262): binds the stack top to
parameter index `count` and counts down to 1, popping as it goes; a non-OK
engine status breaks out and is returned. -/
def bind_varargs_go : List LuaValue → Nat → StmtH → Except LuaErr (Nat × StmtH)
  | _, 0, h => .ok (SQLITE_OK, h)
  | stack, k + 1, h =>
    match bind_one_param (stack.headD .nil) h (k + 1) with
    | .error e => .error e
    | .ok (s, h1) =>
      if s = SQLITE_OK then bind_varargs_go stack.tail k h1 else .ok (s, h1)

/-- bind_varargs (src/clutch.c:251-263): positional mode over the supplied
values v1..vN (in push order). -/
def bind_varargs (vs : List LuaValue) (h : StmtH) : Except LuaErr (Nat × StmtH) :=
  bind_varargs_go (vararg_stack (sqlite3_bind_parameter_count h) vs)
    (sqlite3_bind_parameter_count h) h

/-- is_named_parameter (src/clutch.c:283-285). -/
def is_named_parameter (name : String) : Bool :=
  name.front = ':' || name.front = '@' || name.front = '$'

/-- find_local (src/clutch.c:287-299): scans the calling frame's locals in
index order and pushes the value of the first one whose name matches, or
nil when none does.  The frame is passed as the ordered name/value list
lua_getlocal would enumerate. -/
def find_local (frame : List (String × LuaValue)) (name : String) : LuaValue :=
  match frame.find? (fun p => p.1 = name) with
  | some p => p.2
  | none => .nil

/-- Loop of bind_locals (src/clutch.c:265-281) over the given parameter
indices: an unnamed parameter or one whose name lacks the `:`/`@`/`$`
sigil raises the unnamed-parameter error; otherwise the caller's local with
the sigil-stripped name (nil when absent) is bound; a non-OK engine status
breaks out and is returned. -/
def bind_locals_go (frame : List (String × LuaValue)) :
    List Nat → StmtH → Except LuaErr (Nat × StmtH)
  | [], h => .ok (SQLITE_OK, h)
  | i :: rest, h =>
    match sqlite3_bind_parameter_name h i with
    | none => .error .unnamedParameter
    | some name =>
      if ¬ is_named_parameter name then .error .unnamedParameter
      else
        match bind_one_param (find_local frame (name.drop 1)) h i with
        | .error e => .error e
        | .ok (s, h1) =>
          if s = SQLITE_OK then bind_locals_go frame rest h1 else .ok (s, h1)

/-- bind_locals (src/clutch.c:265-281): caller-local-variable mode. -/
def bind_locals (frame : List (String × LuaValue)) (h : StmtH) :
    Except LuaErr (Nat × StmtH) :=
  bind_locals_go frame (List.range' 1 (sqlite3_bind_parameter_count h)) h

/-- The shape of the arguments supplied beyond the SQL, which selects the
binding mode in bind_stmt (src/clutch.c:193-201): no further stack slots
(`top < nargs + 1`) selects caller-locals mode, a table in the first slot
selects table mode, anything else positional mode. -/
inductive BindArgs where
  | locals (frame : List (String × LuaValue))
  | table (t : LuaTable)
  | varargs (vs : List LuaValue)

/-- bind_stmt (src/clutch.c:193-201). -/
def bind_stmt (h : StmtH) (args : BindArgs) : Except LuaErr (Nat × StmtH) :=
  match args with
  | .locals frame => bind_locals frame h
  | .table t => bind_params t h
  | .varargs vs => bind_varargs vs h

/-- Column-value conversion of handle_row (src/clutch.c:391-407):
integer columns push a Lua integer, float columns a Lua float, text and
blob columns a Lua string of the exact column bytes, NULL (and unknown
types) push nil. -/
def sqlToLua : SqlValue → LuaValue
  | .integer i => .int i
  | .real q => .num q
  | .text s => .str s
  | .blob b => .str b
  | .null => .nil

/-- handle_row (src/clutch.c:385-410): builds the Lua row table from the
current row's column names and values. -/
def handle_row (r : Row) : LuaRow :=
  r.map (fun p => (p.1, sqlToLua p.2))

/-- step (src/clutch.c:373-383): one engine step; SQLITE_ROW yields the
converted row (the C function returns 1 with the row table pushed),
SQLITE_DONE yields none (returns 0), any other status raises
`luaL_error(L, "step: %s", ...)`. -/
def step (h : StmtH) : Except LuaErr (Option LuaRow × StmtH) :=
  match sqlite3_step h with
  | (.row r, h1) => .ok (some (handle_row r), h1)
  | (.done, h1) => .ok (none, h1)
  | (.err c, _) => .error (.stepError c)

/-- iter (src/clutch.c:351-354): the closure produced by query/iter reads
the statement userdata from its upvalue and performs one `step` on it. -/
def iter (h : StmtH) : Except LuaErr (Option LuaRow × StmtH) :=
  step h

/-- step_one (src/clutch.c:356-364): one step; no row raises "no results";
a second step producing another row raises "too many results"; otherwise
the single row (left on the stack by the first step) is returned. -/
def step_one (h : StmtH) : Except LuaErr (LuaRow × StmtH) :=
  match step h with
  | .error e => .error e
  | .ok (none, _) => .error .noResults
  | .ok (some r, h1) =>
    match step h1 with
    | .error e => .error e
    | .ok (some _, _) => .error .tooManyResults
    | .ok (none, h2) => .ok (r, h2)

/-- Termination measure for the step_all loop: rows not yet emitted. -/
def stmtRemaining : StmtH → Nat
  | none => 0
  | some st => st.rows.length - st.cursor

/-- Loop of step_all (src/clutch.c:366-371): `for (i = 1; step(L, stmt); ++i)
lua_rawseti(L, -2, i)` — each produced row is appended at the next 1-based
table index (`acc` is the table built so far). -/
def step_all_go (h : StmtH) (acc : List LuaRow) :
    Except LuaErr (List LuaRow × StmtH) :=
  match hs : step h with
  | .ok (some r, h1) => step_all_go h1 (acc ++ [r])
  | .ok (none, h1) => .ok (acc, h1)
  | .error e => .error e
termination_by stmtRemaining h
decreasing_by
  simp only [step, sqlite3_step] at hs
  rcases h with _ | st
  · simp at hs
  · by_cases hlt : st.cursor < st.rows.length
    · simp only [hlt, if_true] at hs
      cases hs
      simp only [stmtRemaining]
      omega
    · rcases hfin : st.final with _ | c <;> simp [hlt, hfin] at hs

/-- step_all (src/clutch.c:366-371): collects all rows into a fresh table. -/
def step_all (h : StmtH) : Except LuaErr (List LuaRow × StmtH) :=
  step_all_go h []

/-- rebind_stmt (src/clutch.c:154-159): resets the statement, rebinds it,
and returns it.  The status bind_stmt reports is discarded by the source
(only luaL_error raises escape). -/
def rebind_stmt (h : StmtH) (args : BindArgs) : Except LuaErr StmtH :=
  let h1 := (sqlite3_reset h).2
  match bind_stmt h1 args with
  | .error e => .error e
  | .ok (_, h2) => .ok h2

/-- prepare_query (src/clutch.c:161-171): binds the freshly prepared
statement (`h` stands for the result of prepare_stmt, whose engine-side SQL
compilation is external) and raises luaL_error with the engine message when
the bind status is not SQLITE_OK. -/
def prepare_query (h : StmtH) (args : BindArgs) : Except LuaErr StmtH :=
  match bind_stmt h args with
  | .error e => .error e
  | .ok (s, h1) => if s ≠ SQLITE_OK then .error (.sqlError s) else .ok h1

/-- prep_stmt_bind (src/clutch.c:133-136): binds and returns the statement;
the engine status is discarded (the C function returns 1 regardless). -/
def prep_stmt_bind (h : StmtH) (args : BindArgs) : Except LuaErr StmtH :=
  match bind_stmt h args with
  | .error e => .error e
  | .ok (_, h1) => .ok h1

/-- prep_stmt_iter (src/clutch.c:138-142): rebinds and returns the
statement over which the `iter` closure is built. -/
def prep_stmt_iter (h : StmtH) (args : BindArgs) : Except LuaErr StmtH :=
  rebind_stmt h args

/-- prep_stmt_one (src/clutch.c:144). -/
def prep_stmt_one (h : StmtH) (args : BindArgs) : Except LuaErr (LuaRow × StmtH) :=
  match rebind_stmt h args with
  | .error e => .error e
  | .ok h1 => step_one h1

/-- prep_stmt_all (src/clutch.c:146). -/
def prep_stmt_all (h : StmtH) (args : BindArgs) :
    Except LuaErr (List LuaRow × StmtH) :=
  match rebind_stmt h args with
  | .error e => .error e
  | .ok h1 => step_all h1

/-- db_query (src/clutch.c:118-122): prepares and binds a one-shot
statement and returns it (as the upvalue of the `iter` closure). -/
def db_query (h : StmtH) (args : BindArgs) : Except LuaErr StmtH :=
  prepare_query h args

/-- db_query_one (src/clutch.c:124). -/
def db_query_one (h : StmtH) (args : BindArgs) : Except LuaErr (LuaRow × StmtH) :=
  match prepare_query h args with
  | .error e => .error e
  | .ok h1 => step_one h1

/-- db_query_all (src/clutch.c:126).  The second component is the one-shot
statement userdata's handle as the call leaves it. -/
def db_query_all (h : StmtH) (args : BindArgs) :
    Except LuaErr (List LuaRow × StmtH) :=
  match prepare_query h args with
  | .error e => .error e
  | .ok h1 => step_all h1

/-- db_update (src/clutch.c:301-312): prepare + bind, one engine step,
luaL_error with the engine message unless it reports SQLITE_DONE, else the
sqlite3_changes count is returned.  (SQLITE_ROW is also not SQLITE_DONE
and therefore raises.) -/
def db_update (h : StmtH) (args : BindArgs) : Except LuaErr (Int × StmtH) :=
  match prepare_query h args with
  | .error e => .error e
  | .ok h1 =>
    match sqlite3_step h1 with
    | (.done, h2) => .ok (sqlite3_changes h2, h2)
    | (.row _, _) => .error (.sqlError SQLITE_ROW)
    | (.err c, _) => .error (.sqlError c)

/-- An abstract native database handle (`sqlite3 *`). -/
structure Sqlite3 where
  id : Nat
deriving DecidableEq, Repr

/-- close_sqlite (src/clutch.c:111-116): releases the handle iff the stored
pointer is non-NULL, then nulls it.  The second component lists the native
handles this call released (so double release is observable). -/
def close_sqlite (c : Option Sqlite3) : Option Sqlite3 × List Sqlite3 :=
  match c with
  | some d => (none, [d])
  | none => (none, [])

/-- db_close (src/clutch.c:346-349), also registered as the connection's
__gc metamethod. -/
def db_close (c : Option Sqlite3) : Option Sqlite3 × List Sqlite3 :=
  close_sqlite c

/-- close_sqlite_stmt (src/clutch.c:417-422): finalizes the native
statement iff the stored pointer is non-NULL, then nulls it.  The second
component lists the native handles this call finalized. -/
def close_sqlite_stmt (h : StmtH) : StmtH × List Stmt :=
  match h with
  | some st => (none, [st])
  | none => (none, [])

/-- prep_stmt_close (src/clutch.c:412-415), the statement's __gc
metamethod. -/
def prep_stmt_close (h : StmtH) : StmtH × List Stmt :=
  close_sqlite_stmt h

/-- The SQL commands db_transaction issues through sqlite3_exec. -/
inductive TxOp where
  | savepoint
  | release
  | rollbackTo
deriving DecidableEq, Repr

/-- The outcome of `lua_pcall` on the body: normal completion with its
results, or an error value. -/
inductive PCallResult where
  | ok (results : List LuaValue)
  | err (e : LuaValue)

/-- db_transaction (src/clutch.c:314-337).  `spOk` is whether the
`SAVEPOINT clutch_savepoint` exec succeeds (on failure luaL_error raises
the engine message).  The stack choreography — settop to [db, body],
swap to [body, db], pcall body with the connection as its one argument
collecting all results, push the success boolean, rotate it to the
bottom, return everything — yields the flag followed by the body's
results (or by the error value).  The first component is the trace of
sqlite3_exec commands issued. -/
def db_transaction (spOk : Bool) (dbv : LuaValue) (body : LuaValue → PCallResult) :
    Except LuaErr (List TxOp × List LuaValue) :=
  if spOk = false then .error (.sqlError 1)
  else
    match body dbv with
    | .ok rs => .ok ([.savepoint, .release], LuaValue.boolean true :: rs)
    | .err e => .ok ([.savepoint, .rollbackTo], [LuaValue.boolean false, e])

/-! Specification-side helpers used to state properties of the binder. -/

/-- A Lua value bind_one_param accepts without raising: strings, numbers of
either subtype, and nil. -/
def bindable (v : LuaValue) : Bool :=
  lua_isstring v || lua_isinteger v || lua_isnumber v || lua_isnil v

/-- The SQL value bind_one_param hands to the engine for an accepted Lua
value, following the source's branch order. -/
def luaBindVal (v : LuaValue) : SqlValue :=
  if lua_isstring v then .text (lua_tolstring v)
  else if lua_isinteger v then .integer (lua_tointeger v)
  else if lua_isnumber v then .real (lua_tonumber v)
  else .null

/-- The bind trace the vararg loop produces: the stack values (top first)
bound to parameter indices counting down from `k`. -/
def descBinds : List LuaValue → Nat → List (Nat × SqlValue)
  | [], _ => []
  | x :: xs, k => (k, luaBindVal x) :: descBinds xs (k - 1)

/-- The claim-shaped bind trace for positional mode: indices P down to 1,
slot i receiving the i-th supplied value when i ≤ N and NULL when the
values ran out. -/
def posTrace (P : Nat) (vs : List LuaValue) : List (Nat × SqlValue) :=
  ((List.range' 1 P).reverse).map
    (fun i => (i, if i ≤ vs.length then luaBindVal (vs.getD (i - 1) LuaValue.nil)
                  else SqlValue.null))

/-- The claim-shaped bind trace for caller-locals mode: indices 1 up to P,
slot i receiving the value of the caller's local named by the
sigil-stripped parameter name (`nm i` is that parameter's engine-reported
name). -/
def locTrace (P : Nat) (frame : List (String × LuaValue)) (nm : Nat → String) :
    List (Nat × SqlValue) :=
  (List.range' 1 P).map
    (fun i => (i, luaBindVal (find_local frame ((nm i).drop 1))))

/-- A statement with no parameters and no result rows (e.g. an UPDATE
matching nothing), used as a concrete sample. -/
def stmtEmpty : Stmt := { paramNames := [], rows := [] }

/-- A single sample result row. -/
def rowA : Row := [("x", SqlValue.integer 1)]

/-- A second sample result row. -/
def rowB : Row := [("x", SqlValue.integer 2)]

end Clutch

namespace Clutch

/-! Theorems: claims C1-C10 of the specification checked against the
embedded code. -/

/-- C1: the claim says an exact-integer host number is bound as a 64-bit
SQL integer and a non-integral host number as a SQL double, never as text.
The code disagrees: `lua_isstring` is also true for numbers and is the
first branch bind_one_param tests, so a Lua integer 42 is bound as the SQL
text "42" and the float 7/2 as the SQL text "7/2" (the int64/double
branches are unreachable).  This theorem evaluates the code at those
failing inputs. -/
theorem c1_numeric_bound_as_text :
    bind_one_param (LuaValue.int 42)
        (some { paramNames := [some ":a"], rows := [] }) 1 =
      .ok (SQLITE_OK, some { paramNames := [some ":a"], rows := [],
                             bound := [(1, SqlValue.text "42")] }) ∧
    bind_one_param (LuaValue.num (mkRat 7 2))
        (some { paramNames := [some ":a"], rows := [] }) 1 =
      .ok (SQLITE_OK, some { paramNames := [some ":a"], rows := [],
                             bound := [(1, SqlValue.text "7/2")] }) := by
  exact ⟨rfl, by decide⟩

/-- C2: the claim says a one-shot statement is finalized at the end of its
single use, not merely at host GC time.  The code disagrees: neither
step, step_all nor the iter closure ever calls close_sqlite_stmt, so after
an all-rows read completes (here: a query with zero rows) and after an
iterator pull reports end-of-results, the statement userdata still holds
the live native handle; only the __gc metamethod (prep_stmt_close)
releases it.  This theorem evaluates the code at that failing input. -/
theorem c2_one_shot_left_live :
    db_query_all (some stmtEmpty) (BindArgs.locals []) =
      .ok ([], some stmtEmpty) ∧
    iter (some stmtEmpty) = .ok (none, some stmtEmpty) := by
  constructor
  · simp [db_query_all, prepare_query, bind_stmt, bind_locals,
      sqlite3_bind_parameter_count, stmtEmpty, bind_locals_go, step_all,
      step_all_go, step, sqlite3_step, SQLITE_OK]
  · simp [iter, step, sqlite3_step, stmtEmpty]

/-- C3 counterexample: the claim says invoking any statement operation
(bind, iter, one, all) on a finalized Statement reports a defined error to
the caller.  Calling bind on a finalized statement reports no error at
all: the parameter count of a NULL statement is 0, so the bind loop runs
zero iterations and prep_stmt_bind returns normally. -/
theorem c3_bind_finalized_reports_no_error :
    prep_stmt_bind none (BindArgs.varargs [LuaValue.int 5]) = .ok none := by
  rfl

/-- C3 amended: on a finalized Statement, one and all raise the defined
step error carrying SQLITE_MISUSE (sqlite3_step on a NULL handle), and
each pull of the closure obtained from iter raises the same defined error;
bind and iter themselves complete without raising, the bind being a no-op.
No operation reaches undefined behaviour. -/
theorem c3_finalized_stmt_defined_behaviour (args : BindArgs) :
    prep_stmt_one none args = .error (.stepError SQLITE_MISUSE) ∧
    prep_stmt_all none args = .error (.stepError SQLITE_MISUSE) ∧
    prep_stmt_iter none args = .ok none ∧
    iter none = .error (.stepError SQLITE_MISUSE) ∧
    prep_stmt_bind none args = .ok none := by
  have hb : bind_stmt none args = .ok (SQLITE_OK, none) := by
    cases args with
    | locals frame =>
      simp [bind_stmt, bind_locals, sqlite3_bind_parameter_count, bind_locals_go]
    | table t =>
      simp [bind_stmt, bind_params, sqlite3_bind_parameter_count, bind_params_go]
    | varargs vs =>
      simp [bind_stmt, bind_varargs, sqlite3_bind_parameter_count, bind_varargs_go]
  have hr : rebind_stmt none args = .ok none := by
    simp [rebind_stmt, sqlite3_reset, hb]
  refine ⟨?_, ?_, ?_, ?_, ?_⟩
  · simp [prep_stmt_one, hr, step_one, step, sqlite3_step]
  · simp [prep_stmt_all, hr, step_all, step_all_go, step, sqlite3_step]
  · simp [prep_stmt_iter, hr]
  · simp [iter, step, sqlite3_step]
  · simp [prep_stmt_bind, hb]

/-- C5: db_transaction issues the savepoint and invokes the body with the
connection; when the body completes normally the savepoint is released and
the call returns true followed by all the body's results; when the body
raises, the transaction rolls back to the savepoint and the call returns
false followed by the error value — the error is surfaced, not
discarded. -/
theorem c5_transaction_semantics (dbv : LuaValue) (body : LuaValue → PCallResult) :
    (∀ rs, body dbv = .ok rs →
      db_transaction true dbv body =
        .ok ([TxOp.savepoint, TxOp.release], LuaValue.boolean true :: rs)) ∧
    (∀ e, body dbv = .err e →
      db_transaction true dbv body =
        .ok ([TxOp.savepoint, TxOp.rollbackTo], [LuaValue.boolean false, e])) := by
  constructor
  · intro rs hbody
    simp [db_transaction, hbody]
  · intro e hbody
    simp [db_transaction, hbody]

/-- C5 witness: the theorem applied to a committing body and to a raising
body. -/
theorem c5_transaction_semantics_witness :
    db_transaction true (LuaValue.other "db") (fun _ => .ok [LuaValue.int 3]) =
      .ok ([TxOp.savepoint, TxOp.release],
        [LuaValue.boolean true, LuaValue.int 3]) ∧
    db_transaction true (LuaValue.other "db") (fun _ => .err (LuaValue.str "boom")) =
      .ok ([TxOp.savepoint, TxOp.rollbackTo],
        [LuaValue.boolean false, LuaValue.str "boom"]) := by
  constructor
  · exact (c5_transaction_semantics (LuaValue.other "db")
      (fun _ => .ok [LuaValue.int 3])).1 [LuaValue.int 3] rfl
  · exact (c5_transaction_semantics (LuaValue.other "db")
      (fun _ => .err (LuaValue.str "boom"))).2 (LuaValue.str "boom") rfl

/-- C4: single-result mode on a live, freshly positioned statement whose
execution completes without an engine error: exactly one row is returned
as that row; zero rows raise the no-results error; two or more rows raise
the too-many-results error. -/
theorem c4_single_result_mode (st : Stmt) (hf : st.final = none)
    (hc : st.cursor = 0) :
    (st.rows = [] → step_one (some st) = .error .noResults) ∧
    (∀ r, st.rows = [r] →
      step_one (some st) = .ok (handle_row r, some { st with cursor := 1 })) ∧
    (∀ r1 r2 rest, st.rows = r1 :: r2 :: rest →
      step_one (some st) = .error .tooManyResults) := by
  refine ⟨?_, ?_, ?_⟩
  · intro hrows
    simp [step_one, step, sqlite3_step, hf, hrows]
  · intro r hrows
    simp [step_one, step, sqlite3_step, hf, hc, hrows]
  · intro r1 r2 rest hrows
    simp [step_one, step, sqlite3_step, hc, hrows]

/-- C4 witness: the theorem applied to concrete zero-, one- and two-row
statements. -/
theorem c4_single_result_mode_witness :
    step_one (some { paramNames := [], rows := [] }) = .error .noResults ∧
    step_one (some { paramNames := [], rows := [rowA] }) =
      .ok (handle_row rowA, some { paramNames := [], rows := [rowA], cursor := 1 }) ∧
    step_one (some { paramNames := [], rows := [rowA, rowB] }) =
      .error .tooManyResults := by
  refine ⟨?_, ?_, ?_⟩
  · exact (c4_single_result_mode { paramNames := [], rows := [] } rfl rfl).1 rfl
  · exact (c4_single_result_mode { paramNames := [], rows := [rowA] } rfl rfl).2.1
      rowA rfl
  · exact (c4_single_result_mode { paramNames := [], rows := [rowA, rowB] }
      rfl rfl).2.2 rowA rowB [] rfl

/-- The step_all loop on a live statement whose execution completes
without an engine error collects the remaining rows, converted by
handle_row, in emission order (generalised over the accumulator and the
current cursor). -/
theorem step_all_go_ok (n : Nat) : ∀ (st : Stmt) (acc : List LuaRow),
    st.final = none → st.cursor + n = st.rows.length →
    step_all_go (some st) acc =
      .ok (acc ++ (st.rows.drop st.cursor).map handle_row,
           some { st with cursor := st.rows.length }) := by
  induction n with
  | zero =>
    intro st acc hf hc
    have hnl : ¬ st.cursor < st.rows.length := by omega
    have hstep : step (some st) = .ok (none, some st) := by
      simp [step, sqlite3_step, hf, hnl]
    rw [step_all_go, hstep]
    have hdrop : st.rows.drop st.cursor = [] := List.drop_eq_nil_of_le (by omega)
    have hst : { st with cursor := st.rows.length } = st := by
      cases st
      simp_all
    simp [hdrop, hst]
  | succ n ih =>
    intro st acc hf hc
    have hlt : st.cursor < st.rows.length := by omega
    have hstep : step (some st) =
        .ok (some (handle_row (st.rows.getD st.cursor [])),
             some { st with cursor := st.cursor + 1 }) := by
      simp [step, sqlite3_step, hlt]
    have := ih { st with cursor := st.cursor + 1 }
      (acc ++ [handle_row (st.rows.getD st.cursor [])]) hf (by simp; omega)
    rw [step_all_go, hstep]
    simp only [this]
    rw [List.drop_eq_getElem_cons hlt, List.getD_eq_getElem _ _ hlt]
    simp
    conv_rhs => rw [List.drop_eq_getElem_cons (show st.cursor < (st.rows.map handle_row).length by simpa using hlt)]
    simp

/-- C7: all-results mode on a live, freshly positioned statement whose
execution completes without an engine error returns all emitted rows, in
emission order (the C loop stores row i at 1-based table index i), and in
particular the empty sequence — not an error — when there are zero
rows. -/
theorem c7_all_results_mode (st : Stmt) (hf : st.final = none)
    (hc : st.cursor = 0) :
    step_all (some st) =
      .ok (st.rows.map handle_row, some { st with cursor := st.rows.length }) := by
  have := step_all_go_ok st.rows.length st [] hf (by omega)
  rw [step_all, this, hc]
  simp

/-- C7 witness: the theorem applied to a two-row statement and to a
zero-row statement (the latter yielding the empty sequence). -/
theorem c7_all_results_mode_witness :
    step_all (some { paramNames := [], rows := [rowA, rowB] }) =
      .ok ([handle_row rowA, handle_row rowB],
           some { paramNames := [], rows := [rowA, rowB], cursor := 2 }) ∧
    step_all (some { paramNames := [], rows := [] }) =
      .ok ([], some { paramNames := [], rows := [] }) := by
  constructor
  · exact c7_all_results_mode { paramNames := [], rows := [rowA, rowB] } rfl rfl
  · exact c7_all_results_mode { paramNames := [], rows := [] } rfl rfl

/-- C10: db_update prepares and binds the statement (the hypothesis names
the statement this produces), performs a single engine step, raises the
engine-message error unless that step reports completion without a result
row, and on success returns the engine's rows-changed count. -/
theorem c10_update_semantics (st : Stmt) (args : BindArgs) (st1 : Stmt)
    (hp : prepare_query (some st) args = .ok (some st1)) (hc : st1.cursor = 0) :
    (st1.rows = [] → st1.final = none →
      db_update (some st) args = .ok (st1.nChanges, some st1)) ∧
    (st1.rows ≠ [] → db_update (some st) args = .error (.sqlError SQLITE_ROW)) ∧
    (∀ c, st1.rows = [] → st1.final = some c →
      db_update (some st) args = .error (.sqlError c)) := by
  refine ⟨?_, ?_, ?_⟩
  · intro hrows hf
    simp [db_update, hp, sqlite3_step, hrows, hf, sqlite3_changes]
  · intro hrows
    have hlt : st1.cursor < st1.rows.length := by
      cases hr : st1.rows with
      | nil => exact absurd hr hrows
      | cons a l => simp [hr, hc]
    simp [db_update, hp, sqlite3_step, hlt]
  · intro c hrows hfin
    simp [db_update, hp, sqlite3_step, hrows, hfin]

/-- C10 witness: the theorem applied to a parameterless statement that
completes at once having changed 3 rows, and to one that produces a result
row. -/
theorem c10_update_semantics_witness :
    db_update (some { paramNames := [], rows := [], nChanges := 3 })
        (BindArgs.locals []) =
      .ok (3, some { paramNames := [], rows := [], nChanges := 3 }) ∧
    db_update (some { paramNames := [], rows := [rowA] }) (BindArgs.locals []) =
      .error (.sqlError SQLITE_ROW) := by
  constructor
  · exact (c10_update_semantics { paramNames := [], rows := [], nChanges := 3 }
      (BindArgs.locals []) { paramNames := [], rows := [], nChanges := 3 }
      rfl rfl).1 rfl rfl
  · exact (c10_update_semantics { paramNames := [], rows := [rowA] }
      (BindArgs.locals []) { paramNames := [], rows := [rowA] } rfl rfl).2.1
      (by simp)

/-- bind_one_param on an accepted value and an in-range index of a live
statement succeeds with SQLITE_OK and appends exactly the converted value
to the statement's bind trace. -/
theorem bind_one_param_bindable (v : LuaValue) (st : Stmt) (i : Nat)
    (hv : bindable v = true) (h1 : 1 ≤ i) (h2 : i ≤ st.paramNames.length) :
    bind_one_param v (some st) i =
      .ok (SQLITE_OK, some { st with bound := st.bound ++ [(i, luaBindVal v)] }) := by
  have hcond : 1 ≤ i ∧ i ≤ st.paramNames.length := ⟨h1, h2⟩
  cases v <;>
    simp_all [bindable, bind_one_param, luaBindVal, lua_isstring, lua_isinteger,
      lua_isnumber, lua_isnil, sqlite3_bind_text, sqlite3_bind_int64,
      sqlite3_bind_double, sqlite3_bind_null, sqlite3_bind_value]

/-- The countdown loop of bind_varargs on a stack of k accepted values,
k within the parameter count, binds the stack top-to-bottom to indices
k down to 1. -/
theorem bind_varargs_go_ok : ∀ (xs : List LuaValue) (k : Nat) (st : Stmt),
    xs.length = k → k ≤ st.paramNames.length →
    (∀ v ∈ xs, bindable v = true) →
    bind_varargs_go xs k (some st) =
      .ok (SQLITE_OK, some { st with bound := st.bound ++ descBinds xs k }) := by
  intro xs
  induction xs with
  | nil =>
    intro k st hk _ _
    cases hk
    simp [bind_varargs_go, descBinds]
  | cons x xs ih =>
    intro k st hk hle hb
    obtain ⟨k', rfl⟩ : ∃ k', k = k' + 1 := ⟨xs.length, by simpa using hk.symm⟩
    have hxs : xs.length = k' := by simpa using hk
    have hbo := bind_one_param_bindable x st (k' + 1) (hb x (by simp))
      (by omega) (by omega)
    simp only [bind_varargs_go, List.headD_cons, List.tail_cons, hbo]
    rw [if_pos trivial]
    rw [ih k' { st with bound := st.bound ++ [(k' + 1, luaBindVal x)] } hxs
      (by simpa using by omega : k' ≤ st.paramNames.length)
      (fun v hv => hb v (List.mem_cons_of_mem x hv))]
    simp [descBinds]

/-- The stack region bind_varargs works on equals, reversed, the supplied
values truncated to the parameter count and padded with nils. -/
theorem vararg_stack_eq (count : Nat) (vs : List LuaValue) :
    vararg_stack count vs =
      (vs.take count ++ List.replicate (count - vs.length) LuaValue.nil).reverse := by
  unfold vararg_stack
  by_cases h : vs.length ≤ count
  · rw [if_pos h, List.take_of_length_le h, List.reverse_append,
      List.reverse_replicate]
  · rw [if_neg h]
    have hc : count ≤ vs.length := by omega
    rw [Nat.sub_eq_zero_of_le hc, List.replicate_zero, List.append_nil]
    have key : vs.reverse = (vs.drop count).reverse ++ (vs.take count).reverse := by
      rw [← List.reverse_append, List.take_append_drop]
    rw [key]
    have hlen : (vs.drop count).reverse.length = vs.length - count := by simp
    rw [← hlen, List.drop_left]

/-- The descending bind trace of a reversed value list, re-expressed as a
map over the parameter indices in descending order. -/
theorem descBinds_reverse (ws : List LuaValue) :
    descBinds ws.reverse ws.length =
      ((List.range' 1 ws.length).reverse).map
        (fun i => (i, luaBindVal (ws.getD (i - 1) LuaValue.nil))) := by
  induction ws using List.reverseRecOn with
  | nil => simp [descBinds]
  | append_singleton ws w ih =>
    have hrev : (ws ++ [w]).reverse = w :: ws.reverse := by simp
    have hlen : (ws ++ [w]).length = ws.length + 1 := by simp
    rw [hrev, hlen, descBinds]
    simp only [Nat.add_sub_cancel]
    rw [ih, List.range'_concat, List.reverse_append]
    simp only [List.reverse_cons, List.reverse_nil, List.nil_append, List.map_cons,
      one_mul]
    congr 1
    · simp only [Prod.mk.injEq]
      refine ⟨by omega, ?_⟩
      have h3 : 1 + ws.length - 1 = ws.length := by omega
      rw [h3]
      have h2 : (ws ++ [w]).getD ws.length LuaValue.nil = w := by
        simp [List.getD_append_right]
      rw [h2]
    · refine List.map_congr_left (fun i hi => ?_)
      have hi' : 1 ≤ i ∧ i < 1 + ws.length :=
        List.mem_range'_1.mp (List.mem_reverse.mp hi)
      have hlt : i - 1 < ws.length := by omega
      rw [List.getD_append _ _ _ _ hlt]

/-- getD on a replicate with the same default is the replicated element
either way. -/
theorem getD_replicate_self (n m : Nat) (a : LuaValue) :
    (List.replicate n a).getD m a = a := by
  by_cases h : m < n
  · rw [List.getD_eq_getElem _ _ (by simpa using h), List.getElem_replicate]
  · rw [List.getD_eq_default _ _ (by simpa using Nat.le_of_not_lt h)]

/-- The value found at parameter position i of the truncated-and-padded
vararg list: the i-th supplied value when one was supplied, nil
otherwise. -/
theorem effective_getD (count : Nat) (vs : List LuaValue) (i : Nat)
    (h1 : 1 ≤ i) (h2 : i ≤ count) :
    (vs.take count ++ List.replicate (count - vs.length) LuaValue.nil).getD
        (i - 1) LuaValue.nil =
      if i ≤ vs.length then vs.getD (i - 1) LuaValue.nil else LuaValue.nil := by
  by_cases hN : i ≤ vs.length
  · rw [if_pos hN]
    have hlt : i - 1 < (vs.take count).length := by
      simp only [List.length_take]
      omega
    have hlt2 : i - 1 < vs.length := by omega
    rw [List.getD_append _ _ _ _ hlt, List.getD_eq_getElem _ _ hlt,
      List.getElem_take, ← List.getD_eq_getElem _ _ hlt2]
  · rw [if_neg hN]
    have hge : (vs.take count).length ≤ i - 1 := by
      simp only [List.length_take]
      omega
    rw [List.getD_append_right _ _ _ _ hge]
    exact getD_replicate_self _ _ _

/-- C6: positional binding of N supplied values against a statement with P
parameters binds downward from index P to 1; each slot i receives the i-th
supplied value, slots beyond the supplied values (N < i ≤ P) are bound as
NULL, and supplied values beyond the parameter count (i > P) are ignored
(the trace ranges only over 1..P). -/
theorem c6_positional_binding (st : Stmt) (vs : List LuaValue)
    (hb : ∀ v ∈ vs, bindable v = true) :
    bind_varargs vs (some st) =
      .ok (SQLITE_OK,
        some { st with bound := st.bound ++ posTrace st.paramNames.length vs }) := by
  have hwlen :
      (vs.take st.paramNames.length ++
        List.replicate (st.paramNames.length - vs.length) LuaValue.nil).length =
        st.paramNames.length := by
    simp only [List.length_append, List.length_take, List.length_replicate]
    omega
  have hwb : ∀ v ∈ (vs.take st.paramNames.length ++
      List.replicate (st.paramNames.length - vs.length) LuaValue.nil).reverse,
      bindable v = true := by
    intro v hv
    rcases List.mem_append.mp (List.mem_reverse.mp hv) with h | h
    · exact hb v (List.mem_of_mem_take h)
    · rw [List.eq_of_mem_replicate h]
      rfl
  have key : ∀ ws : List LuaValue, ws.length = st.paramNames.length →
      (∀ j, 1 ≤ j → j ≤ st.paramNames.length →
        ws.getD (j - 1) LuaValue.nil =
          if j ≤ vs.length then vs.getD (j - 1) LuaValue.nil else LuaValue.nil) →
      descBinds ws.reverse st.paramNames.length =
        posTrace st.paramNames.length vs := by
    intro ws hlen hval
    rw [← hlen, descBinds_reverse, hlen]
    simp only [posTrace]
    refine List.map_congr_left (fun i hi => ?_)
    have hi' : 1 ≤ i ∧ i < 1 + st.paramNames.length :=
      List.mem_range'_1.mp (List.mem_reverse.mp hi)
    rw [hval i hi'.1 (by omega)]
    by_cases hN : i ≤ vs.length
    · rw [if_pos hN, if_pos hN]
    · rw [if_neg hN, if_neg hN]
      rfl
  have htr := key _ hwlen
    (fun j hj1 hj2 => effective_getD st.paramNames.length vs j hj1 hj2)
  rw [bind_varargs]
  simp only [sqlite3_bind_parameter_count]
  rw [vararg_stack_eq]
  rw [bind_varargs_go_ok _ _ st (by simpa using hwlen) (le_refl _) hwb, htr]

/-- C6 witness: the theorem applied to a three-parameter statement given
one value (slots 3 and 2 read back as NULL, slot 1 gets the value, bound
in the order 3, 2, 1) and given four values (the fourth is ignored). -/
theorem c6_positional_binding_witness :
    bind_varargs [LuaValue.str "x"]
        (some { paramNames := [some ":a", some ":b", some ":c"], rows := [] }) =
      .ok (SQLITE_OK, some { paramNames := [some ":a", some ":b", some ":c"],
                             rows := [],
                             bound := [(3, SqlValue.null), (2, SqlValue.null),
                                       (1, SqlValue.text "x")] }) ∧
    bind_varargs [LuaValue.str "x", LuaValue.str "y", LuaValue.str "z",
        LuaValue.str "w"]
        (some { paramNames := [some ":a", some ":b", some ":c"], rows := [] }) =
      .ok (SQLITE_OK, some { paramNames := [some ":a", some ":b", some ":c"],
                             rows := [],
                             bound := [(3, SqlValue.text "z"), (2, SqlValue.text "y"),
                                       (1, SqlValue.text "x")] }) := by
  constructor
  · exact (c6_positional_binding
      { paramNames := [some ":a", some ":b", some ":c"], rows := [] }
      [LuaValue.str "x"] (by decide)).trans (by decide)
  · exact (c6_positional_binding
      { paramNames := [some ":a", some ":b", some ":c"], rows := [] }
      [LuaValue.str "x", LuaValue.str "y", LuaValue.str "z", LuaValue.str "w"]
      (by decide)).trans (by decide)

/-- Sequencing of the bind_locals loop: a run of indices whose parameters
are all sigil-named with bindable caller-local values binds them in order
and continues with the remaining indices. -/
theorem bind_locals_go_seq (frame : List (String × LuaValue)) (nm : Nat → String)
    (is1 : List Nat) : ∀ (is2 : List Nat) (st : Stmt),
    (∀ i ∈ is1, 1 ≤ i ∧ i ≤ st.paramNames.length ∧
      st.paramNames.getD (i - 1) none = some (nm i) ∧
      is_named_parameter (nm i) = true ∧
      bindable (find_local frame ((nm i).drop 1)) = true) →
    bind_locals_go frame (is1 ++ is2) (some st) =
      bind_locals_go frame is2
        (some { st with bound := st.bound ++
                 is1.map (fun i => (i, luaBindVal (find_local frame ((nm i).drop 1)))) }) := by
  induction is1 with
  | nil =>
    intro is2 st _
    simp
  | cons i is1 ih =>
    intro is2 st hyp
    obtain ⟨h1, h2, hname, hnamed, hbv⟩ := hyp i (by simp)
    have hpn : sqlite3_bind_parameter_name (some st) i = some (nm i) := by
      simpa [sqlite3_bind_parameter_name] using hname
    have hbo := bind_one_param_bindable (find_local frame ((nm i).drop 1)) st i
      hbv h1 h2
    have hih := ih is2 { st with bound := st.bound ++
          [(i, luaBindVal (find_local frame ((nm i).drop 1)))] }
      (fun j hj => hyp j (List.mem_cons_of_mem i hj))
    simp only [List.cons_append, bind_locals_go, hpn, hnamed, hbo]
    simp [hih]

/-- C8: caller-locals binding mode.  When every parameter of the statement
is sigil-named (`:x`, `@x`, `$x`) and every referenced caller local holds
an accepted value, the binder walks indices 1..P and binds each slot to
the value of the caller's local with the sigil-stripped name — `find_local`
yields nil, hence SQL NULL, when no such local exists.  When some
parameter k is anonymous (engine name NULL) or not sigil-named (a purely
numbered `?1` name) and the parameters before it are well-behaved, the
call raises the unnamed-parameter error. -/
theorem c8_locals_binding (st : Stmt) (frame : List (String × LuaValue))
    (nm : Nat → String) :
    ((∀ i ∈ List.range' 1 st.paramNames.length,
        st.paramNames.getD (i - 1) none = some (nm i) ∧
        is_named_parameter (nm i) = true ∧
        bindable (find_local frame ((nm i).drop 1)) = true) →
      bind_locals frame (some st) =
        .ok (SQLITE_OK,
          some { st with bound := st.bound ++ locTrace st.paramNames.length frame nm })) ∧
    (∀ k, 1 ≤ k → k ≤ st.paramNames.length →
      (st.paramNames.getD (k - 1) none = none ∨
        ∃ n, st.paramNames.getD (k - 1) none = some n ∧
             is_named_parameter n = false) →
      (∀ i ∈ List.range' 1 (k - 1),
        st.paramNames.getD (i - 1) none = some (nm i) ∧
        is_named_parameter (nm i) = true ∧
        bindable (find_local frame ((nm i).drop 1)) = true) →
      bind_locals frame (some st) = .error .unnamedParameter) := by
  constructor
  · intro hyp
    have hseq := bind_locals_go_seq frame nm (List.range' 1 st.paramNames.length)
      [] st (fun i hi => by
        have hb := List.mem_range'_1.mp hi
        exact ⟨hb.1, by omega, hyp i hi⟩)
    rw [List.append_nil] at hseq
    rw [bind_locals, sqlite3_bind_parameter_count, hseq]
    simp only [bind_locals_go, locTrace]
  · intro k hk1 hk2 hbad hpre
    have hsplit : List.range' 1 (k - 1) ++ List.range' k (st.paramNames.length - (k - 1)) =
        List.range' 1 st.paramNames.length := by
      have h := List.range'_append 1 (k - 1) (st.paramNames.length - (k - 1)) 1
      rw [show 1 + 1 * (k - 1) = k by omega] at h
      rw [show st.paramNames.length - (k - 1) + (k - 1) = st.paramNames.length
        by omega] at h
      exact h
    have hseq := bind_locals_go_seq frame nm (List.range' 1 (k - 1))
      (List.range' k (st.paramNames.length - (k - 1))) st (fun i hi => by
        have hb := List.mem_range'_1.mp hi
        exact ⟨hb.1, by omega, hpre i hi⟩)
    rw [bind_locals, sqlite3_bind_parameter_count, ← hsplit, hseq]
    have hkform : st.paramNames.length - (k - 1) = (st.paramNames.length - k) + 1 := by
      omega
    rw [hkform, List.range'_succ]
    rcases hbad with hnone | ⟨n, hn, hnn⟩
    · simp only [bind_locals_go, sqlite3_bind_parameter_name, hnone]
    · simp only [bind_locals_go, sqlite3_bind_parameter_name, hn]
      simp [hnn]

/-- C8 witness: part one applied to a statement with parameters `:a`, `$b`
and a caller frame defining only `a` (so `$b` reads back as NULL); part
two applied to a statement whose second parameter is the purely numbered
`?1`, which raises the unnamed-parameter error. -/
theorem c8_locals_binding_witness :
    bind_locals [("a", LuaValue.str "hello")]
        (some { paramNames := [some ":a", some "$b"], rows := [] }) =
      .ok (SQLITE_OK, some { paramNames := [some ":a", some "$b"], rows := [],
                             bound := [(1, SqlValue.text "hello"),
                                       (2, SqlValue.null)] }) ∧
    bind_locals [("a", LuaValue.str "hello")]
        (some { paramNames := [some ":a", some "?1"], rows := [] }) =
      .error .unnamedParameter := by
  constructor
  · exact ((c8_locals_binding { paramNames := [some ":a", some "$b"], rows := [] }
      [("a", LuaValue.str "hello")]
      (fun i => if i = 1 then ":a" else "$b")).1 (by decide)).trans (by decide)
  · exact (c8_locals_binding { paramNames := [some ":a", some "?1"], rows := [] }
      [("a", LuaValue.str "hello")]
      (fun i => if i = 1 then ":a" else "?1")).2 2 (by decide) (by decide)
      (Or.inr ⟨"?1", by decide, by decide⟩) (by decide)

/-- C9: close on a Connection and finalize on a Statement are idempotent:
a second close/finalize (as the GC finalizer performs after an explicit
close) leaves the nulled handle nulled and releases no native handle, and
across both calls at most one native handle is ever released. -/
theorem c9_close_idempotent (c : Option Sqlite3) (h : StmtH) :
    db_close (db_close c).1 = (none, []) ∧
    prep_stmt_close (prep_stmt_close h).1 = (none, []) ∧
    ((db_close c).2 ++ (db_close (db_close c).1).2).length ≤ 1 ∧
    ((prep_stmt_close h).2 ++ (prep_stmt_close (prep_stmt_close h).1).2).length ≤ 1 := by
  cases c <;> cases h <;>
    simp [db_close, close_sqlite, prep_stmt_close, close_sqlite_stmt]

end Clutch
